import Mathlib

/-!
Verification of the `vendordeps` library (`src/lib.rs`, `src/error.rs`).

The Rust code is shallowly embedded: Maven coordinates and manifests are plain
structures, URL construction is string concatenation, stateful pipelines are
modelled with explicit fuel (a `none` result means the loop never terminated),
network downloads are oracles (`Nat → String → Except Error Unit`, giving the
outcome of the attempt for each retry round and mirror URL), and Rust panics
are modelled as `Option.none`.

String operations are carried out on `String.data` (the underlying character
list); the repository only manipulates ASCII names, where character positions
and Rust byte positions agree.
-/

/-- Character-level model of Rust `str::replace('.', "/")` as used in
`get_url` (`lib.rs` lines 52, 105, 206): every dot becomes a slash. -/
def replaceDots (s : String) : String :=
  String.mk (s.data.map fun c => if c = '.' then '/' else c)

/-- Model of Rust `Vec::join(":")` (`lib.rs` line 333). -/
def joinColon : List String → String
  | [] => ""
  | [x] => x
  | x :: y :: rest => x ++ ":" ++ joinColon (y :: rest)

/-- The error enumeration of `src/error.rs`.  Payloads of the wrapped foreign
errors are irrelevant to the claims and dropped; `NotFoundError` carries its
message string exactly as in the source. -/
inductive Error where
  | ReqwestError
  | ZipError
  | ZipSecurityError
  | IoError
  | NotFoundError (msg : String)
  | JwalkError
deriving DecidableEq

/-- `BinaryPlatform` from `lib.rs` lines 166-175. -/
inductive BinaryPlatform where
  | LinuxArm32
  | LinuxArm64
  | LinuxAthena
  | LinuxX86_64
  | OsxUniversal
  | WindowsArm64
  | WindowsX86_64
  | Headers
deriving DecidableEq

/-- `BinaryPlatform::to_str` (`lib.rs` lines 154-162 via the
`binary_platform!` macro). -/
def BinaryPlatform.to_str : BinaryPlatform → String
  | .LinuxArm32 => "linuxarm32"
  | .LinuxArm64 => "linuxarm64"
  | .LinuxAthena => "linuxathena"
  | .LinuxX86_64 => "linuxx86-64"
  | .OsxUniversal => "osxuniversal"
  | .WindowsArm64 => "windowsarm64"
  | .WindowsX86_64 => "windowsx86-64"
  | .Headers => "headers"

/-- `PackageSpec` (`lib.rs` lines 25-32). -/
structure PackageSpec where
  uuid : String
  error_message : String
  offline_file_name : String
deriving DecidableEq

/-- `JavaDependency` (`lib.rs` lines 37-44). -/
structure JavaDependency where
  group_id : String
  artifact_id : String
  version : String
deriving DecidableEq

/-- `JavaDependency::file_name` (`lib.rs` lines 60-62). -/
def JavaDependency.file_name (d : JavaDependency) : String :=
  d.artifact_id ++ "-" ++ d.version ++ ".jar"

/-- `JavaDependency::get_url` (`lib.rs` lines 48-57). -/
def JavaDependency.get_url (d : JavaDependency) (maven_url : String) : String :=
  maven_url ++ replaceDots d.group_id ++ "/" ++ d.artifact_id ++ "/" ++ d.version
    ++ "/" ++ d.file_name

/-- `JniDependency` (`lib.rs` lines 82-97). -/
structure JniDependency where
  group_id : String
  artifact_id : String
  version : String
  is_jar : Bool
  skip_invalid_platforms : Bool
  valid_platforms : List String
  sim_mode : Option String
deriving DecidableEq

/-- `JniDependency::get_url` (`lib.rs` lines 101-112). -/
def JniDependency.get_url (d : JniDependency) (maven_url platform : String)
    (is_debug : Bool) : String :=
  maven_url ++ replaceDots d.group_id ++ "/" ++ d.artifact_id ++ "/" ++ d.version
    ++ "/" ++ d.artifact_id ++ "-" ++ d.version ++ "-" ++ platform
    ++ (if is_debug then "debug" else "")
    ++ "." ++ (if d.is_jar then "jar" else "zip")

/-- `CppDependency` (`lib.rs` lines 180-192). -/
structure CppDependency where
  group_id : String
  artifact_id : String
  version : String
  header_classifier : String
  binary_platforms : List String
deriving DecidableEq

/-- `CppDependency::get_url` (`lib.rs` lines 196-213): the format string
`{0}{1}/{2}/{3}/{2}-{3}-{4}{5}{6}.zip` with `{1}` the group id with dots
replaced by slashes, `{5}` the static marker and `{6}` the debug marker. -/
def CppDependency.get_url (d : CppDependency) (maven_url platform : String)
    (is_static is_debug : Bool) : String :=
  maven_url ++ replaceDots d.group_id ++ "/" ++ d.artifact_id ++ "/" ++ d.version
    ++ "/" ++ d.artifact_id ++ "-" ++ d.version ++ "-" ++ platform
    ++ (if is_static then "static" else "")
    ++ (if is_debug then "debug" else "") ++ ".zip"

/-- The URL fetched by `CppDependency::download_headers_to_folder`
(`lib.rs` lines 246-259): it forwards to `download_library_to_folder` with
`BinaryPlatform::Headers`, `is_static = false`, `is_debug = false`, which
resolves `get_url(maven_url, platform.to_str(), is_static, is_debug)`
(line 225).  The `header_classifier` field is never consulted. -/
def CppDependency.headers_url (d : CppDependency) (maven_url : String) : String :=
  d.get_url maven_url BinaryPlatform.Headers.to_str false false

/-- The common shared prefix of a C++ artifact URL, up to and including the
platform token. -/
def CppDependency.url_stem (d : CppDependency) (maven_url platform : String) : String :=
  maven_url ++ replaceDots d.group_id ++ "/" ++ d.artifact_id ++ "/" ++ d.version
    ++ "/" ++ d.artifact_id ++ "-" ++ d.version ++ "-" ++ platform

/-- `CppInfo` (`lib.rs` lines 264-271).  `PathBuf`s are modelled as strings. -/
structure CppInfo where
  include_dirs : List String
  library_search_paths : List String
  libraries : List String
deriving DecidableEq

/-- `CppInfo::gcc_clang_include_dir_args` (`lib.rs` lines 337-341),
with the lazy iterator materialised as a list. -/
def CppInfo.gcc_clang_include_dir_args (i : CppInfo) : List String :=
  i.include_dirs.map fun x => "-I" ++ x

/-- `CppInfo::gcc_clang_library_search_path_args` (`lib.rs` lines 344-348). -/
def CppInfo.gcc_clang_library_search_path_args (i : CppInfo) : List String :=
  i.library_search_paths.map fun x => "-L" ++ x

/-- `CppInfo::gcc_clang_library_args` (`lib.rs` lines 351-353). -/
def CppInfo.gcc_clang_library_args (i : CppInfo) : List String :=
  i.libraries.map fun x => "-l" ++ x

/-- `CppInfo::gcc_clang_args` (`lib.rs` lines 357-361): the chain of the
three argument iterators. -/
def CppInfo.gcc_clang_args (i : CppInfo) : List String :=
  i.gcc_clang_include_dir_args ++ i.gcc_clang_library_search_path_args
    ++ i.gcc_clang_library_args

/-- `CppInfo::ld_library_path` (`lib.rs` lines 328-334). -/
def CppInfo.ld_library_path (i : CppInfo) : String :=
  joinColon i.library_search_paths

/-- `CppInfo::extend` (`lib.rs` lines 321-325). -/
def CppInfo.extend (i other : CppInfo) : CppInfo :=
  { include_dirs := i.include_dirs ++ other.include_dirs,
    library_search_paths := i.library_search_paths ++ other.library_search_paths,
    libraries := i.libraries ++ other.libraries }

/-- One entry yielded by the `jwalk::WalkDir` traversal of a `libs` tree, as
inspected by the scan loops (`lib.rs` lines 294-310 and 461-477): its parent
directory (`item.parent_path()`), its file stem (`item.path().file_stem()`)
and its extension (`item.path().extension()`). -/
structure WalkEntry where
  parentPath : String
  stem : Option String
  ext : Option String
deriving DecidableEq

/-- Model of the Rust slice `&stem[3..]` (`lib.rs` lines 301, 468, 531): a
byte-range slice of a `str` panics when the start index exceeds the length,
so stems shorter than three characters yield `none` (a panic). -/
def soStrip (stem : String) : Option String :=
  if stem.data.length < 3 then none else some (String.mk (stem.data.drop 3))

/-- `HashSet::insert` modelled on a duplicate-free list kept in insertion
order (the canonical representative of the set's contents). -/
def insertSet (paths : List String) (x : String) : List String :=
  if x ∈ paths then paths else paths ++ [x]

/-- The body of the per-artifact walk loop (`lib.rs` lines 294-310, duplicated
verbatim at lines 461-477): `.so` files contribute their parent directory to
the search-path set and their stem with the first three characters dropped to
the libraries, `.dll` files contribute their parent directory and their stem
verbatim, everything else is skipped.  A `none` result is a panic of the Rust
slice `&stem[3..]`. -/
def scanGo : List WalkEntry → List String → List String →
    Option (List String × List String)
  | [], paths, libs => some (paths, libs)
  | e :: rest, paths, libs =>
    match e.stem with
    | none => scanGo rest paths libs
    | some stem =>
      match e.ext with
      | some "so" =>
        match soStrip stem with
        | none => none
        | some nm => scanGo rest (insertSet paths e.parentPath) (libs ++ [nm])
      | some "dll" => scanGo rest (insertSet paths e.parentPath) (libs ++ [stem])
      | _ => scanGo rest paths libs

/-- Scan of one artifact's `libs` tree: the de-duplicated search-path
candidates (in first-insertion order) and the library names in walk order. -/
def scanArtifact (entries : List WalkEntry) : Option (List String × List String) :=
  scanGo entries [] []

/-- One top-level child of the scanned root: its path and the walk entries
found under its `libs` subdirectory, in walk order. -/
structure ArtifactDir where
  path : String
  entries : List WalkEntry
deriving DecidableEq

/-- The loop of `CppInfo::from_existing` (`lib.rs` lines 290-312).  For each
artifact directory, `<path>/include` is pushed onto `include_dirs`, the
`libs` tree is scanned, and the search-path set is appended via
`library_search_paths.extend(temp_search_paths)`.  Rust's `HashSet` iterates
in an unspecified order (its hasher is randomly seeded), so the model takes
an oracle `hashOrder` giving the iteration order of the set contents. -/
def fromExistingGo (hashOrder : List String → List String) :
    List ArtifactDir → CppInfo → Option CppInfo
  | [], acc => some acc
  | a :: rest, acc =>
    match scanArtifact a.entries with
    | none => none
    | some pr =>
      fromExistingGo hashOrder rest
        { include_dirs := acc.include_dirs ++ [a.path ++ "/include"],
          library_search_paths := acc.library_search_paths ++ hashOrder pr.1,
          libraries := acc.libraries ++ pr.2 }

/-- `CppInfo::from_existing` (`lib.rs` lines 285-318); the same scan also
appears inline in `VendorDep::download_all_cpp_deps_to_folder`
(lines 460-478). -/
def CppInfo.from_existing (hashOrder : List String → List String)
    (arts : List ArtifactDir) : Option CppInfo :=
  fromExistingGo hashOrder arts ⟨[], [], []⟩

/-- Scans of all artifact directories, `none` if any scan panics. -/
def scanAll : List ArtifactDir → Option (List (List String × List String))
  | [] => some []
  | a :: rest =>
    match scanArtifact a.entries with
    | none => none
    | some pr =>
      match scanAll rest with
      | none => none
      | some ps => some (pr :: ps)

/-- Character-level model of `str::ends_with("/")` (`lib.rs` lines 128, 230). -/
def endsWithSlash (s : String) : Bool :=
  match s.data.getLast? with
  | some c => c = '/'
  | none => false

/-- Character-level model of a leading `/` (a rooted path, which
`Path::components` reports as `Component::RootDir`). -/
def startsWithSlash (s : String) : Bool :=
  match s.data with
  | c :: _ => c = '/'
  | [] => false

/-- Whether the name contains a NUL byte (rejected by `enclosed_name`). -/
def containsNul (s : String) : Bool :=
  s.data.any fun c => c = Char.ofNat 0

/-- The components of a zip member name, split at `/`.  Empty components
and `.` components are skipped by `Path::components`, which the consumers of
this list do themselves. -/
def splitSlashChars : List Char → List (List Char)
  | [] => [[]]
  | c :: rest =>
    match splitSlashChars rest with
    | [] => [[c]]
    | g :: gs => if c = '/' then [] :: g :: gs else (c :: g) :: gs

/-- The `/`-separated components of a zip member name. -/
def splitSlash (s : String) : List String :=
  (splitSlashChars s.data).map String.mk

/-- The depth check of `zip::read::ZipFile::enclosed_name`: walking the
components while `..` decrements and a normal component increments a depth
counter that must never underflow (`depth.checked_sub(1)?`); `.` and empty
components are skipped. -/
def checkDepth : List String → Nat → Bool
  | [], _ => true
  | c :: rest, d =>
    if c = "" ∨ c = "." then checkDepth rest d
    else if c = ".." then
      match d with
      | 0 => false
      | Nat.succ d2 => checkDepth rest d2
    else checkDepth rest (d + 1)

/-- One step of filesystem path resolution: `.` and empty components are
no-ops, `..` removes the last component, a normal component is appended. -/
def resolveStep (acc : List String) (c : String) : List String :=
  if c = "" ∨ c = "." then acc
  else if c = ".." then acc.dropLast
  else acc ++ [c]

/-- The path a member name resolves to when joined onto `base` and then
normalised by the filesystem. -/
def resolveFrom (base : List String) (cs : List String) : List String :=
  cs.foldl resolveStep base

/-- `ZipFile::enclosed_name` as a predicate: `some` (safe) exactly when the
name has no NUL, is not rooted, and its components never escape upward.
`enclosed_name` returns the member path unchanged, so the extraction loop
(`lib.rs` lines 126-138 and 228-240) then writes to
`out_folder.join(name)`. -/
def safeName (s : String) : Bool :=
  !containsNul s && !startsWithSlash s && checkDepth (splitSlash s) 0

/-- The zip extraction loop of `JniDependency::download_library_to_folder`
(`lib.rs` lines 126-138) and `CppDependency::download_library_to_folder`
(lines 228-240), with I/O idealised as infallible: members whose name ends in
`/` are skipped; other members must pass `enclosed_name` or the loop aborts
with `Error::ZipSecurityError`; the written path is the member name joined
onto the output directory.  Returns the resolved paths of all files written
before the loop finished or aborted, and the error if it aborted. -/
def extract (out : List String) : List String → List (List String) × Option Error
  | [] => ([], none)
  | m :: rest =>
    if endsWithSlash m then extract out rest
    else if safeName m then
      let r := extract out rest
      (resolveFrom out (splitSlash m) :: r.1, r.2)
    else ([], some Error.ZipSecurityError)

/-- A JSON value, as relevant to manifest decoding.  Integers cover the
`frcYear` forms that appear in manifests. -/
inductive Json where
  | null
  | bool (b : Bool)
  | num (n : Int)
  | str (s : String)
  | arr (xs : List Json)
  | obj (fields : List (String × Json))

/-- First-occurrence lookup of a key in a JSON object. -/
def lookupField : List (String × Json) → String → Option Json
  | [], _ => none
  | (k2, v) :: rest, k => if k2 = k then some v else lookupField rest k

/-- Replace the value at a key (first occurrence), appending the pair when
the key is absent. -/
def setField : List (String × Json) → String → Json → List (String × Json)
  | [], k, v => [(k, v)]
  | (k2, v2) :: rest, k, v =>
    if k2 = k then (k, v) :: rest else (k2, v2) :: setField rest k v

/-- The numeric value of a list of decimal digit characters. -/
def digitsVal (cs : List Char) : Nat :=
  cs.foldl (fun acc c => acc * 10 + (c.toNat - 48)) 0

/-- Model of Rust `str::parse::<u32>()`: an optional leading `+`, then one or
more decimal digits, value below `2^32`. -/
def parseU32Chars : List Char → Option Nat
  | [] => none
  | c :: rest =>
    let ds := if c = '+' then rest else c :: rest
    if ds = [] then none
    else if ds.all Char.isDigit then
      if digitsVal ds < 4294967296 then some (digitsVal ds) else none
    else none

/-- `str::parse::<u32>()` on a string. -/
def parseU32 (s : String) : Option Nat :=
  parseU32Chars s.data

/-- `__private::deserialize_string_or_u32_for_u32` (`lib.rs` lines 593-611):
the untagged `Inner` enum first tries `Int(u32)` (a non-negative integer
below `2^32`), then `String(String)` followed by `parse::<u32>()`. -/
def deserialize_string_or_u32_for_u32 : Json → Except String Nat
  | Json.num n =>
    if 0 ≤ n ∧ n < 4294967296 then Except.ok n.toNat
    else Except.error "data did not match any variant of untagged enum Inner"
  | Json.str s =>
    match parseU32 s with
    | some v => Except.ok v
    | none => Except.error "invalid digit found in string"
  | _ => Except.error "data did not match any variant of untagged enum Inner"

/-- The `frcYear` field: required, decoded by the custom deserializer. -/
def parseFrcYear : Option Json → Except String Nat
  | some v => deserialize_string_or_u32_for_u32 v
  | none => Except.error "missing field frcYear"

/-- A required string field. -/
def requireString (key : String) : Option Json → Except String String
  | some (Json.str s) => Except.ok s
  | some _ => Except.error ("invalid type for " ++ key)
  | none => Except.error ("missing field " ++ key)

/-- A required boolean field. -/
def requireBool (key : String) : Option Json → Except String Bool
  | some (Json.bool b) => Except.ok b
  | some _ => Except.error ("invalid type for " ++ key)
  | none => Except.error ("missing field " ++ key)

/-- A JSON string element. -/
def asString : Json → Except String String
  | Json.str s => Except.ok s
  | _ => Except.error "invalid type: expected a string"

/-- A required array of strings. -/
def requireStringList (key : String) : Option Json → Except String (List String)
  | some (Json.arr xs) => xs.mapM asString
  | some _ => Except.error ("invalid type for " ++ key)
  | none => Except.error ("missing field " ++ key)

/-- A string array field with `#[serde(default)]`: missing means empty. -/
def defaultStringList (key : String) : Option Json → Except String (List String)
  | some (Json.arr xs) => xs.mapM asString
  | some _ => Except.error ("invalid type for " ++ key)
  | none => Except.ok []

/-- An `Option<String>` field with `#[serde(default)]`: missing or `null`
means `None`. -/
def optionalString (key : String) : Option Json → Except String (Option String)
  | some (Json.str s) => Except.ok (some s)
  | some Json.null => Except.ok none
  | some _ => Except.error ("invalid type for " ++ key)
  | none => Except.ok none

/-- A required array field decoded elementwise. -/
def requireArray {α : Type} (key : String) (f : Json → Except String α) :
    Option Json → Except String (List α)
  | some (Json.arr xs) => xs.mapM f
  | some _ => Except.error ("invalid type for " ++ key)
  | none => Except.error ("missing field " ++ key)

/-- Decoding of a `PackageSpec` element (camelCase field names). -/
def parsePackageSpec : Json → Except String PackageSpec
  | Json.obj fs =>
    (requireString "uuid" (lookupField fs "uuid")).bind fun u =>
    (requireString "errorMessage" (lookupField fs "errorMessage")).bind fun em =>
    (requireString "offlineFileName" (lookupField fs "offlineFileName")).bind fun ofn =>
    Except.ok ⟨u, em, ofn⟩
  | _ => Except.error "invalid type: expected an object"

/-- The `conflictsWith` field with `#[serde(default)]`. -/
def parseConflicts : Option Json → Except String (List PackageSpec)
  | some (Json.arr xs) => xs.mapM parsePackageSpec
  | some _ => Except.error "invalid type for conflictsWith"
  | none => Except.ok []

/-- Decoding of a `JavaDependency` element. -/
def parseJavaDependency : Json → Except String JavaDependency
  | Json.obj fs =>
    (requireString "groupId" (lookupField fs "groupId")).bind fun g =>
    (requireString "artifactId" (lookupField fs "artifactId")).bind fun a =>
    (requireString "version" (lookupField fs "version")).bind fun v =>
    Except.ok ⟨g, a, v⟩
  | _ => Except.error "invalid type: expected an object"

/-- Decoding of a `JniDependency` element. -/
def parseJniDependency : Json → Except String JniDependency
  | Json.obj fs =>
    (requireString "groupId" (lookupField fs "groupId")).bind fun g =>
    (requireString "artifactId" (lookupField fs "artifactId")).bind fun a =>
    (requireString "version" (lookupField fs "version")).bind fun v =>
    (requireBool "isJar" (lookupField fs "isJar")).bind fun ij =>
    (requireBool "skipInvalidPlatforms" (lookupField fs "skipInvalidPlatforms")).bind fun sip =>
    (requireStringList "validPlatforms" (lookupField fs "validPlatforms")).bind fun vp =>
    (optionalString "simMode" (lookupField fs "simMode")).bind fun sm =>
    Except.ok ⟨g, a, v, ij, sip, vp, sm⟩
  | _ => Except.error "invalid type: expected an object"

/-- Decoding of a `CppDependency` element. -/
def parseCppDependency : Json → Except String CppDependency
  | Json.obj fs =>
    (requireString "groupId" (lookupField fs "groupId")).bind fun g =>
    (requireString "artifactId" (lookupField fs "artifactId")).bind fun a =>
    (requireString "version" (lookupField fs "version")).bind fun v =>
    (requireString "headerClassifier" (lookupField fs "headerClassifier")).bind fun hc =>
    (defaultStringList "binaryPlatforms" (lookupField fs "binaryPlatforms")).bind fun bp =>
    Except.ok ⟨g, a, v, hc, bp⟩
  | _ => Except.error "invalid type: expected an object"

/-- `VendorDep` (`lib.rs` lines 367-392). -/
structure VendorDep where
  file_name : String
  name : String
  version : String
  frc_year : Nat
  uuid : String
  maven_urls : List String
  json_url : String
  conflicts_with : List PackageSpec
  java_dependencies : List JavaDependency
  jni_dependencies : List JniDependency
  cpp_dependencies : List CppDependency

/-- Decoding of a `VendorDep` from its already-looked-up fields, in the
declaration order of the struct; the `frcYear` argument is the result of the
custom deserializer. -/
def parseVendorDepCore (fileName nm ver : Option Json) (frcYear : Except String Nat)
    (uuid mavenUrls jsonUrl conflictsWith javaDeps jniDeps cppDeps : Option Json) :
    Except String VendorDep :=
  (requireString "fileName" fileName).bind fun v1 =>
  (requireString "name" nm).bind fun v2 =>
  (requireString "version" ver).bind fun v3 =>
  frcYear.bind fun v4 =>
  (requireString "uuid" uuid).bind fun v5 =>
  (requireStringList "mavenUrls" mavenUrls).bind fun v6 =>
  (requireString "jsonUrl" jsonUrl).bind fun v7 =>
  (parseConflicts conflictsWith).bind fun v8 =>
  (requireArray "javaDependencies" parseJavaDependency javaDeps).bind fun v9 =>
  (requireArray "jniDependencies" parseJniDependency jniDeps).bind fun v10 =>
  (requireArray "cppDependencies" parseCppDependency cppDeps).bind fun v11 =>
  Except.ok ⟨v1, v2, v3, v4, v5, v6, v7, v8, v9, v10, v11⟩

/-- Decoding of a manifest document into a `VendorDep` (the serde derive on
`lib.rs` lines 365-392 with camelCase renaming, `frc_year` via
`deserialize_string_or_u32_for_u32`, `conflicts_with` defaulted). -/
def parseVendorDep : Json → Except String VendorDep
  | Json.obj fields =>
    parseVendorDepCore
      (lookupField fields "fileName")
      (lookupField fields "name")
      (lookupField fields "version")
      (parseFrcYear (lookupField fields "frcYear"))
      (lookupField fields "uuid")
      (lookupField fields "mavenUrls")
      (lookupField fields "jsonUrl")
      (lookupField fields "conflictsWith")
      (lookupField fields "javaDependencies")
      (lookupField fields "jniDependencies")
      (lookupField fields "cppDependencies")
  | _ => Except.error "invalid type: expected an object"

/-- Whether an `Except` value is a success. -/
def isOkB {ε α : Type} : Except ε α → Bool
  | Except.ok _ => true
  | Except.error _ => false

/-- One pass of the inner mirror loop (`for maven_url in &self.maven_urls`,
e.g. `lib.rs` lines 419-427): attempts each mirror in order and reports
whether some attempt succeeded (`Ok(_) => break 'outer`); the error values of
failed attempts are discarded (`_ => {}`). -/
def tryMirrors (attempt : String → Except Error Unit) : List String → Bool
  | [] => false
  | u :: rest => if isOkB (attempt u) then true else tryMirrors attempt rest

/-- The `'outer: loop` around the mirror pass (`lib.rs` lines 418-434,
437-459, 501-522, 559-572): on success the loop exits with `Ok`; otherwise,
if `skip_failed_packages` is false it returns `Error::NotFoundError(coord)`,
and if it is true the loop runs another pass.  `attempt round url` is the
oracle outcome of downloading from `url` during pass `round`; the `fuel`
argument bounds the number of passes, with `none` meaning the loop was still
running when the fuel ran out (for every fuel value: the loop never
terminates). -/
def mirrorLoop (attempt : Nat → String → Except Error Unit) (urls : List String)
    (skip : Bool) (coord : String) : Nat → Nat → Option (Except Error Unit)
  | _, 0 => none
  | round, Nat.succ fuel =>
    if tryMirrors (attempt round) urls then some (Except.ok ())
    else if skip then mirrorLoop attempt urls skip coord (round + 1) fuel
    else some (Except.error (Error.NotFoundError coord))

/-- The coordinate string `format!("{}:{}:{}", group_id, artifact_id,
version)` used in `Error::NotFoundError` (e.g. `lib.rs` lines 429-432). -/
def CppDependency.coord (d : CppDependency) : String :=
  d.group_id ++ ":" ++ d.artifact_id ++ ":" ++ d.version

/-- The coordinate string for a Java dependency (`lib.rs` lines 567-570). -/
def JavaDependency.coord (d : JavaDependency) : String :=
  d.group_id ++ ":" ++ d.artifact_id ++ ":" ++ d.version

/-- The coordinate string for a JNI dependency (`lib.rs` lines 517-520). -/
def JniDependency.coord (d : JniDependency) : String :=
  d.group_id ++ ":" ++ d.artifact_id ++ ":" ++ d.version

/-- The download phase of `VendorDep::download_all_cpp_deps_to_folder`
(`lib.rs` lines 415-459): for each dependency in order, first the headers
mirror loop, then the binaries mirror loop; an error from either loop
returns immediately.  `attemptsH d` / `attemptsL d` are the outcome oracles
of the headers / binaries downloads for dependency `d`. -/
def download_all_cpp_deps (attemptsH attemptsL : CppDependency → Nat → String → Except Error Unit)
    (urls : List String) (skip : Bool) (fuel : Nat) :
    List CppDependency → Option (Except Error Unit)
  | [] => some (Except.ok ())
  | d :: rest =>
    match mirrorLoop (attemptsH d) urls skip d.coord 0 fuel with
    | none => none
    | some (Except.error e) => some (Except.error e)
    | some (Except.ok _) =>
      match mirrorLoop (attemptsL d) urls skip d.coord 0 fuel with
      | none => none
      | some (Except.error e) => some (Except.error e)
      | some (Except.ok _) => download_all_cpp_deps attemptsH attemptsL urls skip fuel rest

/-- The download phase of `VendorDep::download_all_java_deps_to_folder`
(`lib.rs` lines 552-586): one mirror loop per dependency in order. -/
def download_all_java_deps (attempts : JavaDependency → Nat → String → Except Error Unit)
    (urls : List String) (skip : Bool) (fuel : Nat) :
    List JavaDependency → Option (Except Error Unit)
  | [] => some (Except.ok ())
  | d :: rest =>
    match mirrorLoop (attempts d) urls skip d.coord 0 fuel with
    | none => none
    | some (Except.error e) => some (Except.error e)
    | some (Except.ok _) => download_all_java_deps attempts urls skip fuel rest

/-- The download phase of `VendorDep::download_all_jni_deps_to_folder`
(`lib.rs` lines 489-548): one mirror loop per dependency in order. -/
def download_all_jni_deps (attempts : JniDependency → Nat → String → Except Error Unit)
    (urls : List String) (skip : Bool) (fuel : Nat) :
    List JniDependency → Option (Except Error Unit)
  | [] => some (Except.ok ())
  | d :: rest =>
    match mirrorLoop (attempts d) urls skip d.coord 0 fuel with
    | none => none
    | some (Except.error e) => some (Except.error e)
    | some (Except.ok _) => download_all_jni_deps attempts urls skip fuel rest

/-- An attempt oracle that always fails (every mirror attempt of every pass
returns a transport error). -/
def alwaysFail {α : Type} : α → Nat → String → Except Error Unit :=
  fun _ _ _ => Except.error Error.ReqwestError

/-- An attempt oracle that succeeds exactly for the dependency with artifact
id `"ok"`. -/
def attemptByArtifact : CppDependency → Nat → String → Except Error Unit :=
  fun d _ _ =>
    if d.artifact_id = "ok" then Except.ok () else Except.error Error.ReqwestError

/-- An attempt oracle that succeeds exactly for the Java dependency with
artifact id `"ok"`. -/
def attemptByArtifactJava : JavaDependency → Nat → String → Except Error Unit :=
  fun d _ _ =>
    if d.artifact_id = "ok" then Except.ok () else Except.error Error.ReqwestError

/-- An attempt oracle that succeeds exactly for the JNI dependency with
artifact id `"ok"`. -/
def attemptByArtifactJni : JniDependency → Nat → String → Except Error Unit :=
  fun d _ _ =>
    if d.artifact_id = "ok" then Except.ok () else Except.error Error.ReqwestError

/-- A concrete C++ dependency whose `header_classifier` is not the
conventional `"headers"`. -/
def hdrsDep : CppDependency :=
  { group_id := "com.example", artifact_id := "foo", version := "1.2.3",
    header_classifier := "hdrs", binary_platforms := [] }

/-- A concrete C++ dependency whose mirrors always fail. -/
def failCppDep : CppDependency :=
  { group_id := "com.example", artifact_id := "foo", version := "1.2.3",
    header_classifier := "headers", binary_platforms := [] }

/-- A concrete C++ dependency whose mirrors succeed under
`attemptByArtifact`. -/
def okCppDep : CppDependency :=
  { group_id := "com.example", artifact_id := "ok", version := "0.1.0",
    header_classifier := "headers", binary_platforms := [] }

/-- A concrete Java dependency. -/
def sampleJavaDep : JavaDependency :=
  { group_id := "com.example", artifact_id := "foo", version := "1.2.3" }

/-- A concrete Java dependency whose mirrors succeed under
`attemptByArtifactJava`. -/
def okJavaDep : JavaDependency :=
  { group_id := "com.example", artifact_id := "ok", version := "0.1.0" }

/-- A concrete JNI dependency. -/
def sampleJniDep : JniDependency :=
  { group_id := "com.example", artifact_id := "foo", version := "1.2.3",
    is_jar := false, skip_invalid_platforms := false, valid_platforms := [],
    sim_mode := none }

/-- A concrete JNI dependency whose mirrors succeed under
`attemptByArtifactJni`. -/
def okJniDep : JniDependency :=
  { group_id := "com.example", artifact_id := "ok", version := "0.1.0",
    is_jar := false, skip_invalid_platforms := false, valid_platforms := [],
    sim_mode := none }

/-- The `hal-cpp` coordinate of spec scenario S2. -/
def halCppDep : CppDependency :=
  { group_id := "edu.wpi.first.hal", artifact_id := "hal-cpp", version := "2024.2.1",
    header_classifier := "headers", binary_platforms := [] }

/-- A concrete scanned tree: one artifact `/r/foo` whose `libs` walk yields
`libbar.so` directly in `libs` and then `libbaz.so` in a subdirectory. -/
def sampleArts : List ArtifactDir :=
  [{ path := "/r/foo",
     entries := [{ parentPath := "/r/foo/libs", stem := some "libbar", ext := some "so" },
                 { parentPath := "/r/foo/libs/sub", stem := some "libbaz", ext := some "so" }] }]

/-- A concrete scanned tree containing an `.so` file whose stem `ab` is
shorter than three characters. -/
def shortStemArts : List ArtifactDir :=
  [{ path := "/r/foo",
     entries := [{ parentPath := "/r/foo/libs", stem := some "ab", ext := some "so" }] }]

/-- A valid manifest object, without its `frcYear` field. -/
def sampleManifestFields : List (String × Json) :=
  [("fileName", Json.str "example.json"),
   ("name", Json.str "Example"),
   ("version", Json.str "1.2.3"),
   ("uuid", Json.str "0000"),
   ("mavenUrls", Json.arr [Json.str "https://repo.example/"]),
   ("jsonUrl", Json.str "https://repo.example/example.json"),
   ("javaDependencies", Json.arr []),
   ("jniDependencies", Json.arr []),
   ("cppDependencies", Json.arr [])]

theorem resolve_keeps_base (cs : List String) : ∀ (base extra : List String),
    checkDepth cs extra.length = true → base <+: resolveFrom (base ++ extra) cs := by
  induction cs with
  | nil =>
    intro base extra _
    exact List.prefix_append base extra
  | cons c rest ih =>
    intro base extra h
    show base <+: resolveFrom (resolveStep (base ++ extra) c) rest
    by_cases h1 : c = "" ∨ c = "."
    · have hs : resolveStep (base ++ extra) c = base ++ extra := by
        simp [resolveStep, h1]
      have h2 : checkDepth rest extra.length = true := by
        simpa [checkDepth, h1] using h
      rw [hs]
      exact ih base extra h2
    · by_cases hdd : c = ".."
      · cases extra with
        | nil => simp [checkDepth, h1, hdd] at h
        | cons e es =>
          have h2 : checkDepth rest es.length = true := by
            simpa [checkDepth, h1, hdd] using h
          have hs : resolveStep (base ++ e :: es) c = base ++ (e :: es).dropLast := by
            simp [resolveStep, h1, hdd,
              List.dropLast_append_of_ne_nil base (List.cons_ne_nil e es)]
          rw [hs]
          exact ih base (e :: es).dropLast (by simpa [List.length_dropLast] using h2)
      · have h2 : checkDepth rest (extra ++ [c]).length = true := by
          simpa [checkDepth, h1, hdd, Nat.add_comm] using h
        have hs : resolveStep (base ++ extra) c = base ++ (extra ++ [c]) := by
          simp [resolveStep, h1, hdd, List.append_assoc]
        rw [hs]
        exact ih base (extra ++ [c]) h2

theorem safeName_resolve (m : String) (out : List String) (h : safeName m = true) :
    out <+: resolveFrom out (splitSlash m) := by
  have h3 : checkDepth (splitSlash m) 0 = true := by
    simp only [safeName, Bool.and_eq_true] at h
    exact h.2
  have h4 := resolve_keeps_base (splitSlash m) out [] h3
  simpa using h4

theorem unsafe_name_rejected (m : String) (out : List String)
    (h : startsWithSlash m = true ∨ ¬ out <+: resolveFrom out (splitSlash m)) :
    safeName m = false := by
  cases h with
  | inl h1 => simp [safeName, h1]
  | inr h2 =>
    by_contra hs
    exact h2 (safeName_resolve m out (by simpa using hs))

theorem extract_written_inside (out : List String) :
    ∀ (members : List String) (p : List String), p ∈ (extract out members).1 → out <+: p := by
  intro members
  induction members with
  | nil => intro p hp; simp [extract] at hp
  | cons m rest ih =>
    intro p hp
    by_cases h1 : endsWithSlash m = true
    · rw [extract, if_pos h1] at hp
      exact ih p hp
    · rw [extract, if_neg h1] at hp
      by_cases h2 : safeName m = true
      · rw [if_pos h2] at hp
        rcases List.mem_cons.mp hp with hp | hp
        · rw [hp]
          exact safeName_resolve m out h2
        · exact ih p hp
      · rw [if_neg h2] at hp
        simp at hp

theorem extract_unsafe_error (out : List String) :
    ∀ (members : List String),
      (∃ m ∈ members, ¬ endsWithSlash m = true ∧
          (startsWithSlash m = true ∨ ¬ out <+: resolveFrom out (splitSlash m))) →
      (extract out members).2 = some Error.ZipSecurityError := by
  intro members
  induction members with
  | nil => rintro ⟨m, hm, _⟩; simp at hm
  | cons m0 rest ih =>
    rintro ⟨m, hm, hne, hu⟩
    rw [List.mem_cons] at hm
    by_cases h1 : endsWithSlash m0 = true
    · have hmr : m ∈ rest := by
        rcases hm with he | h
        · rw [he] at hne; exact absurd h1 hne
        · exact h
      rw [extract, if_pos h1]
      exact ih ⟨m, hmr, hne, hu⟩
    · by_cases h2 : safeName m0 = true
      · have hmr : m ∈ rest := by
          rcases hm with he | h
          · rw [← he] at h2
            rw [unsafe_name_rejected m out hu] at h2
            exact absurd h2 (by simp)
          · exact h
        rw [extract, if_neg h1, if_pos h2]
        exact ih ⟨m, hmr, hne, hu⟩
      · rw [extract, if_neg h1, if_neg h2]

/-- C4: extraction only writes files whose resolved path is a descendant of
the output directory, and an archive with an absolute or root-escaping
(non-directory) member makes the loop abort with `Error::ZipSecurityError`;
in combination, even then no file is written outside the root. -/
theorem extract_path_safety (out : List String) (members : List String) :
    (∀ p ∈ (extract out members).1, out <+: p) ∧
      ((∃ m ∈ members, ¬ endsWithSlash m = true ∧
          (startsWithSlash m = true ∨ ¬ out <+: resolveFrom out (splitSlash m))) →
        (extract out members).2 = some Error.ZipSecurityError) :=
  ⟨fun p hp => extract_written_inside out members p hp,
   fun hex => extract_unsafe_error out members hex⟩

/-- C4 witness: extracting an archive with members `a/b.txt` and
`../evil.txt` into `out` aborts with the zip-security error and writes only
inside `out` (spec scenario S4). -/
theorem extract_path_safety_witness :
    (∀ p ∈ (extract ["out"] ["a/b.txt", "../evil.txt"]).1, ["out"] <+: p) ∧
      (extract ["out"] ["a/b.txt", "../evil.txt"]).2 = some Error.ZipSecurityError :=
  ⟨(extract_path_safety ["out"] ["a/b.txt", "../evil.txt"]).1,
   (extract_path_safety ["out"] ["a/b.txt", "../evil.txt"]).2
     ⟨"../evil.txt", by decide⟩⟩

/-- C1: `download_headers_to_folder` resolves the headers URL with the
literal platform token `"headers"` (`BinaryPlatform::Headers`), not with the
dependency's `header_classifier` field: for a dependency whose
`header_classifier` is `"hdrs"`, the fetched URL differs from the URL built
with `platform = header_classifier`.  This contradicts the field's own doc
comment ("This value is used in place of the 'platform' to get the url"). -/
theorem headers_url_ignores_header_classifier :
    CppDependency.headers_url hdrsDep "https://repo.example/"
        = CppDependency.get_url hdrsDep "https://repo.example/" "headers" false false ∧
      CppDependency.headers_url hdrsDep "https://repo.example/"
        ≠ CppDependency.get_url hdrsDep "https://repo.example/"
            hdrsDep.header_classifier false false := by
  decide

/-- C5: the layout scanner panics (models as `none`) on a regular `.so` file
whose stem `ab` is shorter than three characters, because `&stem[3..]` is an
out-of-range slice; it neither clamps nor skips. -/
theorem scan_short_so_stem_panics :
    scanArtifact [{ parentPath := "/r/foo/libs", stem := some "ab", ext := some "so" }] = none ∧
      CppInfo.from_existing (fun l => l) shortStemArts = none := by
  decide

/-- C6: the C++ artifact URL appends, after the platform token, exactly `""`,
`"static"`, `"debug"`, or `"staticdebug"` (static before debug) followed by
`".zip"`; the `hal-cpp` tuple of spec scenario S2 with both flags set yields
the URL ending in `hal-cpp-2024.2.1-linuxx86-64staticdebug.zip`. -/
theorem cpp_get_url_suffixes :
    (∀ (d : CppDependency) (base platform : String),
        d.get_url base platform false false = d.url_stem base platform ++ ".zip" ∧
        d.get_url base platform true false = d.url_stem base platform ++ "static" ++ ".zip" ∧
        d.get_url base platform false true = d.url_stem base platform ++ "debug" ++ ".zip" ∧
        d.get_url base platform true true = d.url_stem base platform ++ "staticdebug" ++ ".zip") ∧
      CppDependency.get_url halCppDep "https://frcmaven.wpi.edu/artifactory/release/"
          "linuxx86-64" true true
        = "https://frcmaven.wpi.edu/artifactory/release/edu/wpi/first/hal/hal-cpp/2024.2.1/hal-cpp-2024.2.1-linuxx86-64staticdebug.zip" := by
  constructor
  · intro d base platform
    refine ⟨?_, ?_, ?_, ?_⟩
    · show ((d.url_stem base platform ++ "") ++ "") ++ ".zip"
        = d.url_stem base platform ++ ".zip"
      rw [String.append_empty, String.append_empty]
    · show ((d.url_stem base platform ++ "static") ++ "") ++ ".zip"
        = (d.url_stem base platform ++ "static") ++ ".zip"
      rw [String.append_empty]
    · show ((d.url_stem base platform ++ "") ++ "debug") ++ ".zip"
        = (d.url_stem base platform ++ "debug") ++ ".zip"
      rw [String.append_empty]
    · show ((d.url_stem base platform ++ "static") ++ "debug") ++ ".zip"
        = (d.url_stem base platform ++ "staticdebug") ++ ".zip"
      simp only [String.append_assoc]
      rfl
  · decide

/-- C7: the combined gcc/clang argument list is the `-I` flags, then the `-L`
flags, then the `-l` flags, each in element order; on spec scenario S6 it is
`["-I/a", "-L/b", "-lc"]` and the `LD_LIBRARY_PATH` string is `/b`. -/
theorem gcc_clang_args_order :
    (∀ info : CppInfo,
        info.gcc_clang_args
          = info.include_dirs.map (fun x => "-I" ++ x)
            ++ info.library_search_paths.map (fun x => "-L" ++ x)
            ++ info.libraries.map (fun x => "-l" ++ x)) ∧
      CppInfo.gcc_clang_args ⟨["/a"], ["/b"], ["c"]⟩ = ["-I/a", "-L/b", "-lc"] ∧
      CppInfo.ld_library_path ⟨["/a"], ["/b"], ["c"]⟩ = "/b" :=
  ⟨fun _ => rfl, by decide, by decide⟩

/-- C3 counterexample: the per-artifact search paths are appended in the
iteration order of a `HashSet`, which is unspecified (randomly seeded); for
the legal iteration order `List.reverse`, a walk that visits
`/r/foo/libs/libbar.so` before `/r/foo/libs/sub/libbaz.so` yields
`library_search_paths` in the reverse of walk order. -/
theorem library_search_paths_not_walk_order :
    CppInfo.from_existing List.reverse sampleArts
        = some { include_dirs := ["/r/foo/include"],
                 library_search_paths := ["/r/foo/libs/sub", "/r/foo/libs"],
                 libraries := ["bar", "baz"] } ∧
      (["/r/foo/libs/sub", "/r/foo/libs"] : List String)
        ≠ ["/r/foo/libs", "/r/foo/libs/sub"] := by
  decide

theorem fromExistingGo_eq (hashOrder : List String → List String) :
    ∀ (arts : List ArtifactDir) (parts : List (List String × List String)) (acc : CppInfo),
      scanAll arts = some parts →
      fromExistingGo hashOrder arts acc = some
        { include_dirs := acc.include_dirs ++ arts.map (fun a => a.path ++ "/include"),
          library_search_paths :=
            acc.library_search_paths ++ (parts.map (fun p => hashOrder p.1)).flatten,
          libraries := acc.libraries ++ (parts.map (fun p => p.2)).flatten } := by
  intro arts
  induction arts with
  | nil =>
    intro parts acc h
    simp only [scanAll, Option.some.injEq] at h
    subst h
    simp [fromExistingGo]
  | cons a rest ih =>
    intro parts acc h
    cases hsa : scanArtifact a.entries with
    | none =>
      simp only [scanAll, hsa] at h
      exact Option.noConfusion h
    | some pr =>
      cases hsr : scanAll rest with
      | none =>
        simp only [scanAll, hsa, hsr] at h
        exact Option.noConfusion h
      | some ps =>
        simp only [scanAll, hsa, hsr, Option.some.injEq] at h
        subst h
        simp only [fromExistingGo, hsa]
        rw [ih ps ⟨acc.include_dirs ++ [a.path ++ "/include"],
          acc.library_search_paths ++ hashOrder pr.1, acc.libraries ++ pr.2⟩ hsr]
        simp [List.append_assoc]

/-- C3 (amended): for every scanned tree, `include_dirs` lists each
artifact's `<path>/include` in the order the artifacts are processed, and
`libraries` is the concatenation, in artifact order, of the per-artifact
library names in walk order; `library_search_paths` is the concatenation, in
artifact order, of each artifact's de-duplicated search-path candidates, but
within an artifact they appear in the hash-set iteration order `hashOrder`
(which is unspecified), not necessarily in walk order.  The identical scan
loop is inlined in `VendorDep::download_all_cpp_deps_to_folder`
(`lib.rs` lines 460-478). -/
theorem from_existing_orders (hashOrder : List String → List String)
    (arts : List ArtifactDir) (parts : List (List String × List String))
    (h : scanAll arts = some parts) :
    CppInfo.from_existing hashOrder arts = some
      { include_dirs := arts.map (fun a => a.path ++ "/include"),
        library_search_paths := (parts.map (fun p => hashOrder p.1)).flatten,
        libraries := (parts.map (fun p => p.2)).flatten } := by
  have hgo := fromExistingGo_eq hashOrder arts parts ⟨[], [], []⟩ h
  simpa [CppInfo.from_existing] using hgo

/-- C3 witness: on the concrete tree `sampleArts` with the identity hash
order, the scan yields the include directory in artifact order, both search
paths, and the libraries `bar`, `baz` in walk order. -/
theorem from_existing_orders_witness :
    CppInfo.from_existing (fun l => l) sampleArts
      = some { include_dirs := ["/r/foo/include"],
               library_search_paths := ["/r/foo/libs", "/r/foo/libs/sub"],
               libraries := ["bar", "baz"] } := by
  have h := from_existing_orders (fun l => l) sampleArts
    [(["/r/foo/libs", "/r/foo/libs/sub"], ["bar", "baz"])] rfl
  exact h

theorem lookupField_setField_eq (fs : List (String × Json)) (k : String) (v : Json) :
    lookupField (setField fs k v) k = some v := by
  induction fs with
  | nil => simp [setField, lookupField]
  | cons p rest ih =>
    obtain ⟨k2, v2⟩ := p
    by_cases h : k2 = k
    · simp [setField, lookupField, h]
    · simp only [setField, lookupField, if_neg h]
      exact ih

theorem lookupField_setField_ne {k2 k : String} (h : k2 ≠ k)
    (fs : List (String × Json)) (v : Json) :
    lookupField (setField fs k v) k2 = lookupField fs k2 := by
  induction fs with
  | nil => simp [setField, lookupField, Ne.symm h]
  | cons p rest ih =>
    obtain ⟨k3, v3⟩ := p
    by_cases h3 : k3 = k
    · subst h3
      simp [setField, lookupField, Ne.symm h]
    · by_cases h4 : k3 = k2
      · subst h4
        simp [setField, lookupField, if_neg h3]
      · simp only [setField, lookupField, if_neg h3, if_neg h4]
        exact ih

/-- C8: a manifest whose `frcYear` is a non-negative integer below `2^32`
parses identically to the same manifest with that integer written as a
decimal digit string; the custom deserializer accepts both forms and yields
the same value. -/
theorem frc_year_string_or_int (fields : List (String × Json)) (n : Nat) (s : String)
    (hne : s.data ≠ []) (hdig : s.data.all Char.isDigit = true)
    (hval : digitsVal s.data = n) (hlt : n < 4294967296) :
    deserialize_string_or_u32_for_u32 (Json.num (n : Int)) = Except.ok n ∧
      deserialize_string_or_u32_for_u32 (Json.str s) = Except.ok n ∧
      parseVendorDep (Json.obj (setField fields "frcYear" (Json.num (n : Int)))) =
        parseVendorDep (Json.obj (setField fields "frcYear" (Json.str s))) := by
  have hnum : deserialize_string_or_u32_for_u32 (Json.num (n : Int)) = Except.ok n := by
    have h0 : (0 : Int) ≤ (n : Int) := Int.natCast_nonneg n
    have h1 : (n : Int) < 4294967296 := by exact_mod_cast hlt
    simp [deserialize_string_or_u32_for_u32, h0, h1]
  have hparse : parseU32 s = some n := by
    obtain ⟨c, rest, hs⟩ : ∃ c rest, s.data = c :: rest := by
      cases hcs : s.data with
      | nil => exact absurd hcs hne
      | cons c rest => exact ⟨c, rest, rfl⟩
    rw [parseU32, hs]
    rw [hs] at hdig hval
    have hcd : c.isDigit = true := by
      rw [List.all_cons, Bool.and_eq_true] at hdig
      exact hdig.1
    have hcp : ¬ c = '+' := by
      intro hc
      rw [hc] at hcd
      exact absurd hcd (by decide)
    simp only [parseU32Chars, if_neg hcp, if_neg (List.cons_ne_nil c rest), if_pos hdig,
      hval, if_pos hlt]
  have hstr : deserialize_string_or_u32_for_u32 (Json.str s) = Except.ok n := by
    simp [deserialize_string_or_u32_for_u32, hparse]
  refine ⟨hnum, hstr, ?_⟩
  have hy1 : parseFrcYear (lookupField (setField fields "frcYear" (Json.num (n : Int))) "frcYear")
      = Except.ok n := by
    rw [lookupField_setField_eq]
    exact hnum
  have hy2 : parseFrcYear (lookupField (setField fields "frcYear" (Json.str s)) "frcYear")
      = Except.ok n := by
    rw [lookupField_setField_eq]
    exact hstr
  simp only [parseVendorDep, hy1, hy2,
    lookupField_setField_ne (show ("fileName" : String) ≠ "frcYear" from by decide),
    lookupField_setField_ne (show ("name" : String) ≠ "frcYear" from by decide),
    lookupField_setField_ne (show ("version" : String) ≠ "frcYear" from by decide),
    lookupField_setField_ne (show ("uuid" : String) ≠ "frcYear" from by decide),
    lookupField_setField_ne (show ("mavenUrls" : String) ≠ "frcYear" from by decide),
    lookupField_setField_ne (show ("jsonUrl" : String) ≠ "frcYear" from by decide),
    lookupField_setField_ne (show ("conflictsWith" : String) ≠ "frcYear" from by decide),
    lookupField_setField_ne (show ("javaDependencies" : String) ≠ "frcYear" from by decide),
    lookupField_setField_ne (show ("jniDependencies" : String) ≠ "frcYear" from by decide),
    lookupField_setField_ne (show ("cppDependencies" : String) ≠ "frcYear" from by decide)]

/-- C8 witness: the sample manifest with `frcYear` as the number `2024` and
as the string `"2024"` decodes to the same `VendorDep`, and both forms of
the field decode to `2024`. -/
theorem frc_year_string_or_int_witness :
    deserialize_string_or_u32_for_u32 (Json.num ((2024 : Nat) : Int)) = Except.ok 2024 ∧
      deserialize_string_or_u32_for_u32 (Json.str "2024") = Except.ok 2024 ∧
      parseVendorDep (Json.obj (setField sampleManifestFields "frcYear"
            (Json.num ((2024 : Nat) : Int)))) =
        parseVendorDep (Json.obj (setField sampleManifestFields "frcYear"
            (Json.str "2024"))) :=
  frc_year_string_or_int sampleManifestFields 2024 "2024"
    (by decide) (by decide) (by decide) (by decide)

theorem parseVendorDepCore_frc_error (a b c : Option Json) (e : String)
    (uu mu ju cw jd nd cd : Option Json) :
    isOkB (parseVendorDepCore a b c (Except.error e) uu mu ju cw jd nd cd) = false := by
  unfold parseVendorDepCore
  cases requireString "fileName" a with
  | error e1 => rfl
  | ok v1 =>
    cases requireString "name" b with
    | error e2 => rfl
    | ok v2 =>
      cases requireString "version" c with
      | error e3 => rfl
      | ok v3 => rfl

/-- C10: a manifest whose `frcYear` field is a string that does not parse as
an unsigned 32-bit integer fails to decode: no `VendorDep` is produced. -/
theorem frc_year_bad_string_fails (fields : List (String × Json)) (s : String)
    (hf : lookupField fields "frcYear" = some (Json.str s)) (hp : parseU32 s = none) :
    isOkB (parseVendorDep (Json.obj fields)) = false := by
  have hy : parseFrcYear (lookupField fields "frcYear")
      = Except.error "invalid digit found in string" := by
    rw [hf]
    show deserialize_string_or_u32_for_u32 (Json.str s) = _
    simp [deserialize_string_or_u32_for_u32, hp]
  simp only [parseVendorDep, hy]
  exact parseVendorDepCore_frc_error _ _ _ _ _ _ _ _ _ _ _

/-- C10 witness: the sample manifest with `frcYear = "20x4"` fails to
decode. -/
theorem frc_year_bad_string_fails_witness :
    isOkB (parseVendorDep (Json.obj
        (setField sampleManifestFields "frcYear" (Json.str "20x4")))) = false :=
  frc_year_bad_string_fails
    (setField sampleManifestFields "frcYear" (Json.str "20x4")) "20x4" rfl (by decide)

theorem tryMirrors_eq_false (attempt : String → Except Error Unit) :
    ∀ urls : List String, (∀ u ∈ urls, isOkB (attempt u) = false) →
      tryMirrors attempt urls = false := by
  intro urls
  induction urls with
  | nil => intro _; rfl
  | cons u rest ih =>
    intro h
    have h1 : isOkB (attempt u) = false := h u (List.mem_cons_self u rest)
    simp only [tryMirrors, h1, Bool.false_eq_true, if_false]
    exact ih fun u2 hu => h u2 (List.mem_cons_of_mem _ hu)

theorem tryMirrors_congr (a1 a2 : String → Except Error Unit)
    (h : ∀ u, isOkB (a1 u) = isOkB (a2 u)) :
    ∀ urls : List String, tryMirrors a1 urls = tryMirrors a2 urls := by
  intro urls
  induction urls with
  | nil => rfl
  | cons u rest ih => simp only [tryMirrors, h u, ih]

theorem mirrorLoop_allFail (attempt : Nat → String → Except Error Unit)
    (urls : List String) (coord : String)
    (h : ∀ r u, u ∈ urls → isOkB (attempt r u) = false) :
    ∀ (fuel round : Nat), mirrorLoop attempt urls true coord round fuel = none := by
  intro fuel
  induction fuel with
  | zero => intro round; rfl
  | succ f ih =>
    intro round
    have ht : tryMirrors (attempt round) urls = false :=
      tryMirrors_eq_false _ urls fun u hu => h round u hu
    simp only [mirrorLoop, ht, Bool.false_eq_true, if_false, if_true]
    exact ih (round + 1)

theorem mirrorLoop_exhaust (attempt : Nat → String → Except Error Unit)
    (urls : List String) (coord : String) (round fuel : Nat)
    (h : tryMirrors (attempt round) urls = false) :
    mirrorLoop attempt urls false coord round (fuel + 1)
      = some (Except.error (Error.NotFoundError coord)) := by
  simp [mirrorLoop, h]

theorem mirrorLoop_pass_ok (attempt : Nat → String → Except Error Unit)
    (urls : List String) (skip : Bool) (coord : String) (round fuel : Nat)
    (h : tryMirrors (attempt round) urls = true) :
    mirrorLoop attempt urls skip coord round (fuel + 1) = some (Except.ok ()) := by
  simp [mirrorLoop, h]

theorem mirrorLoop_congr (a1 a2 : Nat → String → Except Error Unit) (urls : List String)
    (h : ∀ r u, isOkB (a1 r u) = isOkB (a2 r u)) (skip : Bool) (coord : String) :
    ∀ (fuel round : Nat),
      mirrorLoop a1 urls skip coord round fuel = mirrorLoop a2 urls skip coord round fuel := by
  intro fuel
  induction fuel with
  | zero => intro round; rfl
  | succ f ih =>
    intro round
    have ht := tryMirrors_congr (a1 round) (a2 round) (fun u => h round u) urls
    simp only [mirrorLoop, ht, ih]

/-- C2: with `skip_failed_packages = true` and a dependency all of whose
mirror attempts fail, the download pipelines do not terminate: the
`'outer: loop` has no exit in this case and retries the mirror list forever
(for every fuel bound the loop is still running), instead of skipping the
dependency and producing output for subsequent dependencies. -/
theorem skip_failed_packages_never_terminates :
    ∀ fuel : Nat,
      download_all_cpp_deps alwaysFail alwaysFail ["https://repo.example/"] true fuel
          [failCppDep] = none ∧
        download_all_java_deps alwaysFail ["https://repo.example/"] true fuel
          [sampleJavaDep] = none ∧
        download_all_jni_deps alwaysFail ["https://repo.example/"] true fuel
          [sampleJniDep] = none := by
  intro fuel
  refine ⟨?_, ?_, ?_⟩
  · simp only [download_all_cpp_deps,
      mirrorLoop_allFail (alwaysFail failCppDep) _ _ (fun r u _ => rfl) fuel 0]
  · simp only [download_all_java_deps,
      mirrorLoop_allFail (alwaysFail sampleJavaDep) _ _ (fun r u _ => rfl) fuel 0]
  · simp only [download_all_jni_deps,
      mirrorLoop_allFail (alwaysFail sampleJniDep) _ _ (fun r u _ => rfl) fuel 0]

/-- C9: with `skip_failed_packages = false`, when every mirror attempt for a
dependency fails (and the dependencies before it download fine), each of the
three pipelines — C++, Java and JNI — returns `Error::NotFoundError` naming
the coordinate as `group:artifact:version`; moreover per-mirror error values
are swallowed: the loop's result depends only on which attempts succeeded,
not on the errors of the failed attempts. -/
theorem not_found_on_exhaustion
    (attemptsH attemptsL : CppDependency → Nat → String → Except Error Unit)
    (attemptsJ : JavaDependency → Nat → String → Except Error Unit)
    (attemptsN : JniDependency → Nat → String → Except Error Unit)
    (urls : List String)
    (pre : List CppDependency) (d : CppDependency) (post : List CppDependency)
    (preJ : List JavaDependency) (dJ : JavaDependency) (postJ : List JavaDependency)
    (preN : List JniDependency) (dN : JniDependency) (postN : List JniDependency)
    (fuel : Nat) (hfuel : 0 < fuel)
    (hpre : ∀ p ∈ pre, tryMirrors (attemptsH p 0) urls = true ∧
      tryMirrors (attemptsL p 0) urls = true)
    (hH : ∀ r u, u ∈ urls → isOkB (attemptsH d r u) = false)
    (_hL : ∀ r u, u ∈ urls → isOkB (attemptsL d r u) = false)
    (hpreJ : ∀ p ∈ preJ, tryMirrors (attemptsJ p 0) urls = true)
    (hJ : ∀ r u, u ∈ urls → isOkB (attemptsJ dJ r u) = false)
    (hpreN : ∀ p ∈ preN, tryMirrors (attemptsN p 0) urls = true)
    (hN : ∀ r u, u ∈ urls → isOkB (attemptsN dN r u) = false) :
    download_all_cpp_deps attemptsH attemptsL urls false fuel (pre ++ d :: post)
        = some (Except.error (Error.NotFoundError
            (d.group_id ++ ":" ++ d.artifact_id ++ ":" ++ d.version))) ∧
      download_all_java_deps attemptsJ urls false fuel (preJ ++ dJ :: postJ)
        = some (Except.error (Error.NotFoundError
            (dJ.group_id ++ ":" ++ dJ.artifact_id ++ ":" ++ dJ.version))) ∧
      download_all_jni_deps attemptsN urls false fuel (preN ++ dN :: postN)
        = some (Except.error (Error.NotFoundError
            (dN.group_id ++ ":" ++ dN.artifact_id ++ ":" ++ dN.version))) ∧
      (∀ a1 a2 : Nat → String → Except Error Unit,
        (∀ r u, isOkB (a1 r u) = isOkB (a2 r u)) →
        ∀ (skip : Bool) (coord : String) (fuel2 round : Nat),
          mirrorLoop a1 urls skip coord round fuel2
            = mirrorLoop a2 urls skip coord round fuel2) := by
  obtain ⟨f, rfl⟩ : ∃ f, fuel = f + 1 := ⟨fuel - 1, by omega⟩
  refine ⟨?_, ?_, ?_, ?_⟩
  · have main : ∀ pre2 : List CppDependency,
        (∀ p ∈ pre2, tryMirrors (attemptsH p 0) urls = true ∧
          tryMirrors (attemptsL p 0) urls = true) →
        download_all_cpp_deps attemptsH attemptsL urls false (f + 1) (pre2 ++ d :: post)
          = some (Except.error (Error.NotFoundError
              (d.group_id ++ ":" ++ d.artifact_id ++ ":" ++ d.version))) := by
      intro pre2
      induction pre2 with
      | nil =>
        intro _
        simp only [List.nil_append, download_all_cpp_deps]
        rw [mirrorLoop_exhaust (attemptsH d) urls d.coord 0 f
          (tryMirrors_eq_false _ urls fun u hu => hH 0 u hu)]
        rfl
      | cons p rest ih =>
        intro hpre2
        have hp := hpre2 p (List.mem_cons_self p rest)
        simp only [List.cons_append, download_all_cpp_deps]
        rw [mirrorLoop_pass_ok (attemptsH p) urls false p.coord 0 f hp.1,
          mirrorLoop_pass_ok (attemptsL p) urls false p.coord 0 f hp.2]
        exact ih fun q hq => hpre2 q (List.mem_cons_of_mem _ hq)
    exact main pre hpre
  · have mainJ : ∀ pre2 : List JavaDependency,
        (∀ p ∈ pre2, tryMirrors (attemptsJ p 0) urls = true) →
        download_all_java_deps attemptsJ urls false (f + 1) (pre2 ++ dJ :: postJ)
          = some (Except.error (Error.NotFoundError
              (dJ.group_id ++ ":" ++ dJ.artifact_id ++ ":" ++ dJ.version))) := by
      intro pre2
      induction pre2 with
      | nil =>
        intro _
        simp only [List.nil_append, download_all_java_deps]
        rw [mirrorLoop_exhaust (attemptsJ dJ) urls dJ.coord 0 f
          (tryMirrors_eq_false _ urls fun u hu => hJ 0 u hu)]
        rfl
      | cons p rest ih =>
        intro hpre2
        simp only [List.cons_append, download_all_java_deps]
        rw [mirrorLoop_pass_ok (attemptsJ p) urls false p.coord 0 f
          (hpre2 p (List.mem_cons_self p rest))]
        exact ih fun q hq => hpre2 q (List.mem_cons_of_mem _ hq)
    exact mainJ preJ hpreJ
  · have mainN : ∀ pre2 : List JniDependency,
        (∀ p ∈ pre2, tryMirrors (attemptsN p 0) urls = true) →
        download_all_jni_deps attemptsN urls false (f + 1) (pre2 ++ dN :: postN)
          = some (Except.error (Error.NotFoundError
              (dN.group_id ++ ":" ++ dN.artifact_id ++ ":" ++ dN.version))) := by
      intro pre2
      induction pre2 with
      | nil =>
        intro _
        simp only [List.nil_append, download_all_jni_deps]
        rw [mirrorLoop_exhaust (attemptsN dN) urls dN.coord 0 f
          (tryMirrors_eq_false _ urls fun u hu => hN 0 u hu)]
        rfl
      | cons p rest ih =>
        intro hpre2
        simp only [List.cons_append, download_all_jni_deps]
        rw [mirrorLoop_pass_ok (attemptsN p) urls false p.coord 0 f
          (hpre2 p (List.mem_cons_self p rest))]
        exact ih fun q hq => hpre2 q (List.mem_cons_of_mem _ hq)
    exact mainN preN hpreN
  · intro a1 a2 ha skip coord fuel2 round
    exact mirrorLoop_congr a1 a2 urls ha skip coord fuel2 round

/-- C9 witness: with one mirror, a first dependency that downloads and a
second whose attempts all fail, each of the three pipelines returns the
`NotFoundError` naming `com.example:foo:1.2.3`; and two mirror loops whose
attempts fail with different error values produce the same result. -/
theorem not_found_on_exhaustion_witness :
    download_all_cpp_deps attemptByArtifact attemptByArtifact ["https://repo.example/"]
        false 1 [okCppDep, failCppDep]
        = some (Except.error (Error.NotFoundError
            (failCppDep.group_id ++ ":" ++ failCppDep.artifact_id ++ ":"
              ++ failCppDep.version))) ∧
      download_all_java_deps attemptByArtifactJava ["https://repo.example/"]
          false 1 [okJavaDep, sampleJavaDep]
        = some (Except.error (Error.NotFoundError
            (sampleJavaDep.group_id ++ ":" ++ sampleJavaDep.artifact_id ++ ":"
              ++ sampleJavaDep.version))) ∧
      download_all_jni_deps attemptByArtifactJni ["https://repo.example/"]
          false 1 [okJniDep, sampleJniDep]
        = some (Except.error (Error.NotFoundError
            (sampleJniDep.group_id ++ ":" ++ sampleJniDep.artifact_id ++ ":"
              ++ sampleJniDep.version))) ∧
      mirrorLoop (fun _ _ => Except.error Error.ReqwestError) ["https://repo.example/"]
          false "c" 0 2
        = mirrorLoop (fun _ _ => Except.error Error.IoError) ["https://repo.example/"]
          false "c" 0 2 := by
  have h := not_found_on_exhaustion attemptByArtifact attemptByArtifact
    attemptByArtifactJava attemptByArtifactJni ["https://repo.example/"]
    [okCppDep] failCppDep [] [okJavaDep] sampleJavaDep [] [okJniDep] sampleJniDep []
    1 (by decide)
    (fun p hp => by
      rw [List.mem_singleton] at hp
      subst hp
      exact ⟨rfl, rfl⟩)
    (fun r u _ => rfl) (fun r u _ => rfl)
    (fun p hp => by
      rw [List.mem_singleton] at hp
      subst hp
      exact rfl)
    (fun r u _ => rfl)
    (fun p hp => by
      rw [List.mem_singleton] at hp
      subst hp
      exact rfl)
    (fun r u _ => rfl)
  exact ⟨h.1, h.2.1, h.2.2.1, h.2.2.2 _ _ (fun r u => rfl) false "c" 2 0⟩
